import Mathlib

/-!
# Verification of the vecto resilience engine

A shallow embedding of the resilience core of the `vecto` Go HTTP client:
the circuit breaker (`circuit_breaker.go`), the retry executor, the
request/URL model (`request.go`, `url.go`) and the completion-callback
dispatcher (`callbacks.go`), together with theorems settling the spec's
claims about them.

Conventions of the embedding:
* Go `time.Time` and `time.Duration` are modelled as `Int` nanoseconds
  (`t.After(u)` is `u < t`, `a.Sub(b) >= d` is `d ≤ a - b`).
* Go nil-able pointers and nil-able function fields are `Option`.
* Go errors are the inductive `GoError`; the concrete error types of the
  repository (`*CircuitBreakerError`, the `fmt.Errorf("request failed after
  %d attempts: %w", ...)` wrap, `net.Error`, `*url.Error`, context errors)
  are its constructors.
* Methods that mutate a struct under a mutex become pure functions from the
  struct to the updated struct; the mutex itself (and logging / metrics /
  `OnStateChange` side effects, which no claim is about) is not modelled.
-/

namespace Vecto

/-- One nanosecond-denominated second, i.e. Go's `time.Second`. -/
def second : Int := 1000000000

/-- The fields of `Response` (response.go) that the resilience engine reads:
`StatusCode` and the `success` flag set by status validation.  The body
bytes, raw request/response and back-reference are never inspected by the
code under verification. -/
structure Response where
  statusCode : Int
  success : Bool
deriving DecidableEq, Repr

/-- The circuit breaker states (`CircuitBreakerState`, circuit_breaker.go):
`StateClosed`, `StateOpen`, `StateHalfOpen`. -/
inductive CBState where
  | closed
  | open
  | halfOpen
deriving DecidableEq, Repr

/-- Go errors as seen by the resilience engine.  `netError` stands for a
value implementing `net.Error`, `urlError` for a `*url.Error` (with its
`Temporary()` and `Timeout()` results), `ctxCanceled` for a context
cancellation error, `plain` for any other error, `circuitOpen` for
`*CircuitBreakerError` and `retryExhausted` for the error built by
`fmt.Errorf("request failed after %d attempts: %w", attempt, lastErr)`. -/
inductive GoError where
  | netError
  | urlError (temporary timeout : Bool)
  | ctxCanceled
  | plain (msg : String)
  | circuitOpen (state : CBState) (key : String)
  | retryExhausted (attempts : Int) (cause : GoError)
deriving DecidableEq, Repr

/-- `defaultShouldTrip` (circuit_breaker.go:80-88): a result counts as a
qualifying failure when the error is non-nil, the response is nil, or the
status code is `>= 500` or `< 200`. -/
def defaultShouldTrip (res : Option Response) (err : Option GoError) : Bool :=
  match err with
  | some _ => true
  | none =>
    match res with
    | none => true
    | some r => 500 ≤ r.statusCode || r.statusCode < 200

/-- `CircuitBreakerConfig` (circuit_breaker.go:36-66).  `shouldTrip` is
`Option` because the Go field is a nil-able function value; `OnStateChange`
and `Logger` only produce side effects and are not modelled. -/
structure CBConfig where
  failureThreshold : Int
  successThreshold : Int
  timeout : Int
  halfOpenMaxRequests : Int
  windowSize : Int
  shouldTrip : Option (Option Response → Option GoError → Bool)

/-- `DefaultCircuitBreakerConfig` (circuit_breaker.go:69-78). -/
def DefaultCircuitBreakerConfig : CBConfig :=
  { failureThreshold := 5
    successThreshold := 2
    timeout := 60 * second
    halfOpenMaxRequests := 1
    windowSize := 60 * second
    shouldTrip := some defaultShouldTrip }

/-- The mutable state of a `CircuitBreaker` (circuit_breaker.go:96-106).
`failures` is the sliding window of failure timestamps (the `timestamp`
fields of the `failureRecord` slice, in order). -/
structure CircuitBreaker where
  config : CBConfig
  key : String
  state : CBState
  failures : List Int
  lastFailureTime : Int
  halfOpenRequests : Int
  consecutiveSuccesses : Int
  stateChangeTime : Int

/-- `NewCircuitBreaker` (circuit_breaker.go:109-138), with `now` standing
for the `time.Now()` call.  The Go code replaces each non-positive config
field in sequence; every guard reads only the field it replaces, so the
sequence equals this simultaneous update. -/
def NewCircuitBreaker (key : String) (config : CBConfig) (now : Int) : CircuitBreaker :=
  { config :=
      { failureThreshold := if config.failureThreshold ≤ 0 then 5 else config.failureThreshold
        successThreshold := if config.successThreshold ≤ 0 then 2 else config.successThreshold
        timeout := if config.timeout ≤ 0 then 60 * second else config.timeout
        halfOpenMaxRequests :=
          if config.halfOpenMaxRequests ≤ 0 then 1 else config.halfOpenMaxRequests
        windowSize := if config.windowSize ≤ 0 then 60 * second else config.windowSize
        shouldTrip :=
          match config.shouldTrip with
          | none => some defaultShouldTrip
          | some f => some f }
    key := key
    state := .closed
    failures := []
    lastFailureTime := 0
    halfOpenRequests := 0
    consecutiveSuccesses := 0
    stateChangeTime := now }

/-- `cleanupOldFailures` (circuit_breaker.go:238-247): keep exactly the
records whose timestamp is strictly after `now - WindowSize`
(`f.timestamp.After(cutoff)`), preserving order. -/
def cleanupOldFailures (now : Int) (cb : CircuitBreaker) : CircuitBreaker :=
  { cb with failures := cb.failures.filter fun t => now - cb.config.windowSize < t }

/-- `recordFailure` (circuit_breaker.go:231-235): append the new record,
update `lastFailureTime`, then prune. -/
def recordFailure (now : Int) (cb : CircuitBreaker) : CircuitBreaker :=
  cleanupOldFailures now { cb with failures := cb.failures ++ [now], lastFailureTime := now }

/-- `shouldOpen` (circuit_breaker.go:250-252). -/
def shouldOpen (cb : CircuitBreaker) : Prop :=
  cb.config.failureThreshold ≤ (cb.failures.length : Int)

instance (cb : CircuitBreaker) : Decidable (shouldOpen cb) := by
  unfold shouldOpen; infer_instance

/-- `transitionToOpen` (circuit_breaker.go:255-268), minus the notify/log
side effects. -/
def transitionToOpen (now : Int) (cb : CircuitBreaker) : CircuitBreaker :=
  if cb.state = .open then cb
  else
    { cb with
      state := .open
      stateChangeTime := now
      halfOpenRequests := 0
      consecutiveSuccesses := 0 }

/-- `transitionToHalfOpen` (circuit_breaker.go:271-284). -/
def transitionToHalfOpen (now : Int) (cb : CircuitBreaker) : CircuitBreaker :=
  if cb.state = .halfOpen then cb
  else
    { cb with
      state := .halfOpen
      stateChangeTime := now
      halfOpenRequests := 0
      consecutiveSuccesses := 0 }

/-- `transitionToClosed` (circuit_breaker.go:287-301): also clears the
failure window (`cb.failures = cb.failures[:0]`). -/
def transitionToClosed (now : Int) (cb : CircuitBreaker) : CircuitBreaker :=
  if cb.state = .closed then cb
  else
    { cb with
      state := .closed
      stateChangeTime := now
      failures := []
      halfOpenRequests := 0
      consecutiveSuccesses := 0 }

/-- `allowRequest` (circuit_breaker.go:166-194): returns the admission
decision together with the updated breaker; `now` stands for the
`time.Now()` taken inside the critical section. -/
def allowRequest (now : Int) (cb : CircuitBreaker) : Bool × CircuitBreaker :=
  match cb.state with
  | .closed => (true, cleanupOldFailures now cb)
  | .open =>
    if cb.config.timeout ≤ now - cb.stateChangeTime then
      (true, transitionToHalfOpen now cb)
    else
      (false, cb)
  | .halfOpen =>
    if cb.config.halfOpenMaxRequests ≤ cb.halfOpenRequests then
      (false, cb)
    else
      (true, { cb with halfOpenRequests := cb.halfOpenRequests + 1 })

/-- The `ShouldTrip` call in `recordResult`.  `NewCircuitBreaker`
guarantees the field is non-nil; a nil field would make the Go call panic,
so the `getD` default branch is never exercised by a constructed breaker. -/
def callShouldTrip (c : CBConfig) (res : Option Response) (err : Option GoError) : Bool :=
  (c.shouldTrip.getD defaultShouldTrip) res err

/-- `recordResult` (circuit_breaker.go:197-228).  The `switch` has cases
only for `StateClosed` and `StateHalfOpen`; in `StateOpen` nothing is
mutated. -/
def recordResult (now : Int) (res : Option Response) (err : Option GoError)
    (cb : CircuitBreaker) : CircuitBreaker :=
  let isFailure := callShouldTrip cb.config res err
  match cb.state with
  | .closed =>
    if isFailure then
      let cb1 := recordFailure now cb
      if shouldOpen cb1 then transitionToOpen now cb1 else cb1
    else
      cleanupOldFailures now cb
  | .halfOpen =>
    if isFailure then
      let cb1 := transitionToOpen now cb
      { cb1 with halfOpenRequests := 0, consecutiveSuccesses := 0 }
    else
      let cb1 :=
        { cb with
          consecutiveSuccesses := cb.consecutiveSuccesses + 1
          halfOpenRequests := cb.halfOpenRequests - 1 }
      if cb1.config.successThreshold ≤ cb1.consecutiveSuccesses then
        transitionToClosed now cb1
      else
        cb1
  | .open => cb

/-- The response/error pair produced by one invocation of the wrapped
function (or of `v.client.Do`). -/
structure AttemptOutcome where
  res : Option Response
  err : Option GoError
deriving DecidableEq, Repr

/-- What `CircuitBreaker.Execute` (circuit_breaker.go:142-157) returns,
together with the final breaker state and whether the wrapped function was
invoked at all. -/
structure ExecuteResult where
  breaker : CircuitBreaker
  res : Option Response
  err : Option GoError
  invoked : Bool

/-- `Execute` (circuit_breaker.go:142-157): gate on `allowRequest`; on
rejection return a `*CircuitBreakerError` carrying the current state and
key without invoking `fn`; on admission invoke `fn` and, when its error is
non-nil, record the result.  `nowA`/`nowR` are the `time.Now()` values of
the two critical sections. -/
def Execute (nowA nowR : Int) (cb : CircuitBreaker) (fn : AttemptOutcome) : ExecuteResult :=
  let gate := allowRequest nowA cb
  if gate.1 then
    let cb2 :=
      if fn.err.isSome then recordResult nowR fn.res fn.err gate.2 else gate.2
    { breaker := cb2, res := fn.res, err := fn.err, invoked := true }
  else
    { breaker := gate.2
      res := none
      err := some (.circuitOpen gate.2.state cb.key)
      invoked := false }

/-- Folding `recordResult` over a sequence of timed outcomes: the breaker
after the listed results have been recorded in order. -/
def recordSeq (seq : List (Int × AttemptOutcome)) (cb : CircuitBreaker) : CircuitBreaker :=
  seq.foldl (fun s p => recordResult p.1 p.2.res p.2.err s) cb

/-! ## Retry executor (retry source file) -/

/-- The three standard `BackoffFunc` shapes shipped with the library.  A
user-supplied backoff function is outside this embedding (no claim is
about one); a `none` field means the Go field is nil and
`getRetryWaitTime` falls back to `ExponentialBackoff`. -/
inductive BackoffKind where
  | exponential
  | linear
  | fixed
deriving DecidableEq, Repr

/-- `RetryConfig` (retry source file).  `OnRetry` only produces side
effects and is not modelled. -/
structure RetryConfig where
  maxAttempts : Int
  waitTime : Int
  maxWaitTime : Int
  backoff : Option BackoffKind
  retryCondition : Option (Option Response → Option GoError → Bool)
  retryAfter : Option (Int → Option Response → Option GoError → Int)
  respectRetryAfterHeader : Bool

/-- Two's-complement wrap of an integer into the int64 range — Go's
defined behavior for an overflowing signed multiplication on
`time.Duration` values (`9223372036854775808 = 2^63`,
`18446744073709551616 = 2^64`). -/
def wrap64 (n : Int) : Int :=
  (n + 9223372036854775808) % 18446744073709551616 - 9223372036854775808

/-- `time.Duration(math.Pow(2, float64(attempt-1)))`: the power of two is
exactly representable as a float64, and for `1 ≤ attempt ≤ 63` it also
fits in int64, so the conversion yields exactly `2^(attempt-1)`; for
`attempt ≤ 0` the fractional power truncates to 0.  For `attempt ≥ 64`
the float→int64 conversion is out of range and implementation-specific in
Go; that region is outside the model and outside every theorem below. -/
def pow2Duration (attempt : Int) : Int :=
  if attempt ≤ 0 then 0 else 2 ^ (attempt - 1).toNat

/-- `ExponentialBackoff`: the local `wait := config.WaitTime *
time.Duration(math.Pow(2, float64(attempt-1)))` — a wrapping int64
multiplication — clamped to `MaxWaitTime` when that is positive; 1 second
for a nil config or non-positive `WaitTime`. -/
def ExponentialBackoff (attempt : Int) (config : Option RetryConfig) : Int :=
  match config with
  | none => second
  | some c =>
    if c.waitTime ≤ 0 then second
    else if 0 < c.maxWaitTime ∧
        c.maxWaitTime < wrap64 (c.waitTime * pow2Duration attempt) then
      c.maxWaitTime
    else wrap64 (c.waitTime * pow2Duration attempt)

/-- `LinearBackoff`: the local `wait := config.WaitTime *
time.Duration(attempt)` — a wrapping int64 multiplication — clamped to
`MaxWaitTime` when that is positive; 1 second for a nil config or
non-positive `WaitTime`. -/
def LinearBackoff (attempt : Int) (config : Option RetryConfig) : Int :=
  match config with
  | none => second
  | some c =>
    if c.waitTime ≤ 0 then second
    else if 0 < c.maxWaitTime ∧ c.maxWaitTime < wrap64 (c.waitTime * attempt) then
      c.maxWaitTime
    else wrap64 (c.waitTime * attempt)

/-- `FixedBackoff`: always `config.WaitTime`; 1 second for a nil config or
non-positive `WaitTime`. -/
def FixedBackoff (_attempt : Int) (config : Option RetryConfig) : Int :=
  match config with
  | none => second
  | some c => if c.waitTime ≤ 0 then second else c.waitTime

/-- Which modelled errors satisfy the `err.(net.Error)` type assertion:
dedicated `net.Error` values, and `*url.Error` (it has `Temporary()` and
`Timeout()` methods, hence implements the interface). -/
def implementsNetError : GoError → Bool
  | .netError => true
  | .urlError _ _ => true
  | _ => false

/-- `isNetworkError`: the `net.Error` assertion, then the `*url.Error`
fallback on `Temporary() || Timeout()` (unreachable here because
`*url.Error` already passes the first assertion). -/
def isNetworkError (err : Option GoError) : Bool :=
  match err with
  | none => false
  | some e =>
    if implementsNetError e then true
    else
      match e with
      | .urlError tmp tmo => tmp || tmo
      | _ => false

/-- `DefaultRetryCondition`: retry on network-level errors and on
`*url.Error`; for error-free outcomes retry on status `>= 500` or `== 429`;
never retry a nil response without error. -/
def DefaultRetryCondition (res : Option Response) (err : Option GoError) : Bool :=
  match err with
  | some e =>
    if isNetworkError (some e) then true
    else
      match e with
      | .urlError _ _ => true
      | _ => false
  | none =>
    match res with
    | none => false
    | some r => 500 ≤ r.statusCode || r.statusCode = 429

/-- `shouldRetry`: false for a nil config, false once
`MaxAttempts >= 0 && attempt >= MaxAttempts`, otherwise the configured
condition (default `DefaultRetryCondition`). -/
def shouldRetry (attempt : Int) (config : Option RetryConfig)
    (res : Option Response) (err : Option GoError) : Bool :=
  match config with
  | none => false
  | some c =>
    if 0 ≤ c.maxAttempts ∧ c.maxAttempts ≤ attempt then false
    else (c.retryCondition.getD DefaultRetryCondition) res err

/-- The `Retry-After` header value as `parseRetryAfterHeader` would compute
it (0 when absent or unparsable).  String/date parsing is outside the
embedding; the parsed value is supplied as a function of the response. -/
def getRetryWaitTime (retryAfterOf : Option Response → Int) (attempt : Int)
    (config : Option RetryConfig) (res : Option Response) (err : Option GoError) : Int :=
  match config with
  | none => second
  | some c =>
    match c.retryAfter with
    | some f => f attempt res err
    | none =>
      if c.respectRetryAfterHeader ∧ res.isSome ∧ 0 < retryAfterOf res then
        if 0 < c.maxWaitTime ∧ c.maxWaitTime < retryAfterOf res then c.maxWaitTime
        else retryAfterOf res
      else
        match c.backoff with
        | some .exponential => ExponentialBackoff attempt config
        | some .linear => LinearBackoff attempt config
        | some .fixed => FixedBackoff attempt config
        | none => ExponentialBackoff attempt config

/-- The success test of the retry loop:
`err == nil && res != nil && res.success`. -/
def isSuccessOutcome (o : AttemptOutcome) : Bool :=
  o.err.isNone && (match o.res with | some r => r.success | none => false)

/-- One environment of a retry run: `doFn n` is the outcome `v.client.Do`
returns on the n-th attempt; `ctxErrAfter n` is what `ctx.Err()` returns
at the post-attempt cancellation check, and `ctxErrDuringWait n` is the
cancellation observed by the `select` during the n-th wait (`none` means
the `time.After` branch fires). -/
structure RetryEnv where
  doFn : Nat → AttemptOutcome
  ctxErrAfter : Nat → Option GoError
  ctxErrDuringWait : Nat → Option GoError

/-- The `for` loop of `executeWithRetry`, fuelled (the Go loop can run
forever when `MaxAttempts == -1`; `none` means the fuel ran out before the
loop returned).  `attempt` is the value of the Go counter before the
`attempt++` at the top of the body. -/
def retryLoop (env : RetryEnv) (c : RetryConfig) (attempt : Nat) :
    Nat → Option (Option Response × Option GoError)
  | 0 => none
  | fuel + 1 =>
    let a := attempt + 1
    let o := env.doFn a
    if isSuccessOutcome o then some (o.res, none)
    else if ¬ shouldRetry (a : Int) (some c) o.res o.err then
      -- loop exit: the post-loop wrap of a non-nil lastErr
      match o.err with
      | some e => some (o.res, some (.retryExhausted (a : Int) e))
      | none => some (o.res, none)
    else
      match env.ctxErrAfter a with
      | some ce => some (o.res, some ce)
      | none =>
        match env.ctxErrDuringWait a with
        | some ce => some (o.res, some ce)
        | none => retryLoop env c a fuel

/-- `executeWithRetry` (retry source file): a single `v.client.Do` call for
a nil config or `MaxAttempts == 0`, the retry loop otherwise. -/
def executeWithRetry (env : RetryEnv) (config : Option RetryConfig) (fuel : Nat) :
    Option (Option Response × Option GoError) :=
  match config with
  | none => some ((env.doFn 1).res, (env.doFn 1).err)
  | some c =>
    if c.maxAttempts = 0 then some ((env.doFn 1).res, (env.doFn 1).err)
    else retryLoop env c 0 fuel

/-! ## URL construction and the request parameter map (url.go, request.go)

`url.Values` (a Go map from key to value slice) is modelled as an
association list with distinct keys; `Encode` sorts by key, so the list
order never reaches an observable result.  `url.Parse` is modelled by
taking the base URL already split into components, with `query` the parse
of its raw query; string-level URL parsing is outside the embedding. -/

/-- A parsed `url.URL`: scheme, host, path, the parse of its query
(`Query()`), and the raw query component (`RawQuery`). -/
structure GoURL where
  scheme : String
  host : String
  path : String
  query : List (String × List String)
  rawQuery : String
deriving DecidableEq, Repr

/-- `url.Values.Add`: append `v` to the slice at `k`, creating the entry
when absent. -/
def valuesAdd : List (String × List String) → String → String → List (String × List String)
  | [], k, v => [(k, [v])]
  | (k0, vs0) :: rest, k, v =>
    if k0 = k then (k0, vs0 ++ [v]) :: rest
    else (k0, vs0) :: valuesAdd rest k v

/-- UTF-8 encoding of a code point, as the byte values Go iterates over
when escaping a string. -/
def utf8Bytes (c : Char) : List Nat :=
  let n := c.toNat
  if n < 128 then [n]
  else if n < 2048 then [192 + n / 64, 128 + n % 64]
  else if n < 65536 then [224 + n / 4096, 128 + (n / 64) % 64, 128 + n % 64]
  else [240 + n / 262144, 128 + (n / 4096) % 64, 128 + (n / 64) % 64, 128 + n % 64]

/-- Uppercase hexadecimal digit, as `url`'s escaper emits. -/
def hexDigit (n : Nat) : Char :=
  if n < 10 then Char.ofNat (48 + n) else Char.ofNat (55 + n)

/-- The bytes `url.QueryEscape` leaves unescaped: ASCII alphanumerics and
`-`, `_`, `.`, `~`. -/
def isUnreservedByte (b : Nat) : Bool :=
  (65 ≤ b ∧ b ≤ 90) ∨ (97 ≤ b ∧ b ≤ 122) ∨ (48 ≤ b ∧ b ≤ 57) ∨
    b = 45 ∨ b = 95 ∨ b = 46 ∨ b = 126

/-- One byte under `url.QueryEscape`: unreserved bytes kept, space becomes
`+`, everything else `%XX`. -/
def escapeByte (b : Nat) : String :=
  if isUnreservedByte b then String.mk [Char.ofNat b]
  else if b = 32 then "+"
  else String.mk [Char.ofNat 37, hexDigit (b / 16), hexDigit (b % 16)]

/-- `url.QueryEscape` applied byte-wise to the UTF-8 encoding. -/
def queryEscape (s : String) : String :=
  String.join (((s.data.map utf8Bytes).flatten).map escapeByte)

/-- Go's byte-wise string ordering (`s < t` over the UTF-8 bytes), on the
code-point sequences: UTF-8 encoding preserves code-point order, so the
two coincide. -/
def charsLt : List Char → List Char → Bool
  | [], [] => false
  | [], _ :: _ => true
  | _ :: _, [] => false
  | a :: as, b :: bs =>
    if a.toNat < b.toNat then true
    else if b.toNat < a.toNat then false
    else charsLt as bs

/-- The key comparison `sort.Strings` uses in `url.Values.Encode`. -/
def keyLt (a b : String) : Bool := charsLt a.data b.data

/-- Insertion into a key-sorted `Values` list (keys are distinct, so the
tie order is immaterial); `valuesSort` realises the ascending key sort of
`url.Values.Encode`. -/
def insertByKey (p : String × List String) :
    List (String × List String) → List (String × List String)
  | [] => [p]
  | q :: rest => if keyLt q.1 p.1 then q :: insertByKey p rest else p :: q :: rest

/-- Sort a `Values` list by key ascending (the `sort.Strings(keys)` step of
`Encode`). -/
def valuesSort (l : List (String × List String)) : List (String × List String) :=
  l.foldr insertByKey []

/-- `url.Values.Encode`: keys in ascending order, each value of a key in
slice order, `escape(k)=escape(v)` pairs joined by `&`. -/
def valuesEncode (vs : List (String × List String)) : String :=
  String.intercalate "&"
    ((valuesSort vs).map fun kv =>
      kv.2.map fun v => queryEscape kv.1 ++ "=" ++ queryEscape v).flatten

/-- The `for key, value := range params { urlParams.Add(...) }` loop of
`getUrlInstance`.  Go map iteration order is unspecified, but each params
key is added exactly once and `Encode` sorts, so any order yields the same
encoding; the embedding folds in list order. -/
def valuesAddAll (base : List (String × List String)) (params : List (String × String)) :
    List (String × List String) :=
  params.foldl (fun vs kv => valuesAdd vs kv.1 kv.2) base

/-- `getUrlInstance` (url.go:8-21): parse the base URL, add every request
parameter to its query values (`fmt.Sprintf("%v", value)` is modelled by
taking parameter values as strings), and set `RawQuery` to their encoding.
The parse-failure branch is outside the embedding because the base arrives
pre-parsed. -/
def getUrlInstance (base : GoURL) (params : List (String × String)) : GoURL :=
  { base with rawQuery := valuesEncode (valuesAddAll base.query params) }

/-- `url.URL.String()` restricted to the components the model carries:
`scheme://host path` plus `?rawQuery` when the query is non-empty. -/
def urlToString (u : GoURL) : String :=
  u.scheme ++ "://" ++ u.host ++ u.path ++
    (if u.rawQuery = "" then "" else "?" ++ u.rawQuery)

/-- The fields of `Request` (request.go) involved in URL derivation: the
base URL (pre-parsed), the memoised full URL string and components, and
the query-parameter map (an association list with distinct keys; values
already rendered to strings). -/
structure RequestM where
  baseURL : GoURL
  url : String
  host : String
  scheme : String
  path : String
  params : List (String × String)
deriving DecidableEq, Repr

/-- Go map assignment `r.params[key] = value`: replace the value at an
existing key, append the key otherwise. -/
def mapSet : List (String × String) → String → String → List (String × String)
  | [], k, v => [(k, v)]
  | (k0, v0) :: rest, k, v =>
    if k0 = k then (k0, v) :: rest else (k0, v0) :: mapSet rest k v

/-- `refreshUrlUnsafe` (request.go:98-117): re-derive the full URL, host,
scheme and path from the base URL and the current parameter map.  The
`http.NewRequest` re-creation only rebuilds the raw request and its error
branch is unreachable for a parseable URL, so it is not modelled. -/
def refreshUrlUnsafe (r : RequestM) : RequestM :=
  let fullUrl := getUrlInstance r.baseURL r.params
  { r with
    url := urlToString fullUrl
    host := fullUrl.host
    scheme := fullUrl.scheme
    path := fullUrl.path }

/-- `SetParam` (request.go:50-61): reject an empty key with a validation
error, otherwise store the parameter and synchronously re-derive the URL. -/
def SetParam (r : RequestM) (key value : String) : Except String RequestM :=
  if key = "" then .error "param key cannot be empty"
  else .ok (refreshUrlUnsafe { r with params := mapSet r.params key value })

/-! ## Completion-callback dispatch (callbacks.go)

`executeCallback` runs in its own goroutine (spawned by `dispatch`), with a
deferred function that releases the semaphore slot and calls `recover()`.
The user callback, however, runs in a *second* goroutine spawned inside
`executeCallback`, whose only deferred function is `close(done)`.  Go's
`recover` intercepts a panic only when called from a deferred function of
the panicking goroutine, so the model tracks in which goroutine a panic
unwinds. -/

/-- How a user completion callback behaves when invoked. -/
inductive CallbackBehavior where
  | returnsNormally
  | panicsWith (msg : String)
deriving DecidableEq, Repr

/-- How a goroutine terminates: normally, or by an unrecovered panic
escaping its stack. -/
inductive GoroutineTermination where
  | normal
  | unrecoveredPanic (msg : String)
deriving DecidableEq, Repr

/-- The inner goroutine of `executeCallback` (callbacks.go:100-108): if the
callback context is already done it returns without invoking the callback;
otherwise it invokes the callback.  Its only deferred function is
`close(done)`, which contains no `recover()`, so a callback panic unwinds
past it unrecovered. -/
def callbackGoroutine (ctxDone : Bool) (cb : CallbackBehavior) : GoroutineTermination :=
  if ctxDone then .normal
  else
    match cb with
    | .returnsNormally => .normal
    | .panicsWith m => .unrecoveredPanic m

/-- The observable outcome of one `executeCallback` dispatch. -/
inductive DispatchOutcome where
  | completed
  | timeoutReported
  | panicCaughtAndReported (msg : String)
  | processCrash (msg : String)
deriving DecidableEq, Repr

/-- `executeCallback` (callbacks.go:76-120).  The deferred
`recover()` (lines 84-94) belongs to `executeCallback`'s goroutine; a
panic in the callback goroutine is a different goroutine's panic, which
`recover` cannot intercept — per the Go runtime an unrecovered panic in
any goroutine terminates the process.  `timedOut` records whether the
outer `select` saw `callbackCtx.Done()` before `done`. -/
def executeCallback (ctxDone timedOut : Bool) (cb : CallbackBehavior) : DispatchOutcome :=
  match callbackGoroutine ctxDone cb with
  | .unrecoveredPanic m => .processCrash m
  | .normal => if timedOut then .timeoutReported else .completed

/-- A concrete retry policy used to exercise the backoff theorem:
`WaitTime = 2ns`, `MaxWaitTime = 7ns`. -/
def sampleBackoffConfig : RetryConfig :=
  { maxAttempts := 0
    waitTime := 2
    maxWaitTime := 7
    backoff := none
    retryCondition := none
    retryAfter := none
    respectRetryAfterHeader := false }

/-- A breaker sitting in the Open state since time 0, with `Timeout = 5ns`. -/
def openBreakerEx : CircuitBreaker :=
  { config :=
      { failureThreshold := 1
        successThreshold := 2
        timeout := 5
        halfOpenMaxRequests := 1
        windowSize := 10
        shouldTrip := some defaultShouldTrip }
    key := "svc"
    state := .open
    failures := [0]
    lastFailureTime := 0
    halfOpenRequests := 0
    consecutiveSuccesses := 0
    stateChangeTime := 0 }

/-- A fresh HalfOpen breaker with `SuccessThreshold = 2`,
`HalfOpenMaxRequests = 1`. -/
def halfOpenBreakerEx : CircuitBreaker :=
  { config :=
      { failureThreshold := 1
        successThreshold := 2
        timeout := 5
        halfOpenMaxRequests := 1
        windowSize := 10
        shouldTrip := some defaultShouldTrip }
    key := "svc"
    state := .halfOpen
    failures := [0]
    lastFailureTime := 0
    halfOpenRequests := 0
    consecutiveSuccesses := 0
    stateChangeTime := 0 }

/-- The all-zero configuration with nil trip predicate: every field is
subject to default replacement in `NewCircuitBreaker`. -/
def zeroCBConfig : CBConfig :=
  { failureThreshold := 0
    successThreshold := 0
    timeout := 0
    halfOpenMaxRequests := 0
    windowSize := 0
    shouldTrip := none }

/-- A fresh Closed breaker with `FailureThreshold = 2`, `WindowSize = 10ns`,
`Timeout = 5ns`. -/
def closedBreakerEx : CircuitBreaker :=
  { config :=
      { failureThreshold := 2
        successThreshold := 2
        timeout := 5
        halfOpenMaxRequests := 1
        windowSize := 10
        shouldTrip := some defaultShouldTrip }
    key := "svc"
    state := .closed
    failures := []
    lastFailureTime := 0
    halfOpenRequests := 0
    consecutiveSuccesses := 0
    stateChangeTime := 0 }

/-- A transport outcome carrying a network-level error (a qualifying
failure under the default trip predicate). -/
def netFailureOutcome : AttemptOutcome :=
  { res := none, err := some .netError }

/-- A retry policy with `MaxAttempts = 5` and the default condition and
backoff. -/
def retryCfg5 : RetryConfig :=
  { maxAttempts := 5
    waitTime := second
    maxWaitTime := 0
    backoff := none
    retryCondition := none
    retryAfter := none
    respectRetryAfterHeader := false }

/-- A retry policy with `MaxAttempts = 2` and the default condition and
backoff. -/
def retryCfg2 : RetryConfig :=
  { maxAttempts := 2
    waitTime := second
    maxWaitTime := 0
    backoff := none
    retryCondition := none
    retryAfter := none
    respectRetryAfterHeader := false }

/-- A one-second base wait with a 30-second cap and unlimited attempts:
at attempt 40 the exponential wait multiplication overflows int64. -/
def overflowCfg : RetryConfig :=
  { maxAttempts := -1
    waitTime := second
    maxWaitTime := 30 * second
    backoff := none
    retryCondition := none
    retryAfter := none
    respectRetryAfterHeader := false }

/-- A `2^62`-nanosecond base wait with an equal cap: at attempt 4 the
linear wait multiplication overflows int64 to 0. -/
def hugeWaitCfg : RetryConfig :=
  { maxAttempts := -1
    waitTime := 4611686018427387904
    maxWaitTime := 4611686018427387904
    backoff := none
    retryCondition := none
    retryAfter := none
    respectRetryAfterHeader := false }

/-- A run in which every attempt fails with a plain (non-retryable) error
and the context never cancels. -/
def plainErrEnv : RetryEnv :=
  { doFn := fun _ => { res := none, err := some (.plain "boom") }
    ctxErrAfter := fun _ => none
    ctxErrDuringWait := fun _ => none }

/-- A run in which every attempt yields a 404 response (non-retryable,
unsuccessful, nil error). -/
def http404Env : RetryEnv :=
  { doFn := fun _ => { res := some { statusCode := 404, success := false }, err := none }
    ctxErrAfter := fun _ => none
    ctxErrDuringWait := fun _ => none }

/-- A run in which every attempt yields a 500 response (retryable,
unsuccessful, nil error). -/
def http500Env : RetryEnv :=
  { doFn := fun _ => { res := some { statusCode := 500, success := false }, err := none }
    ctxErrAfter := fun _ => none
    ctxErrDuringWait := fun _ => none }

/-- A run in which every attempt fails with a retryable network error. -/
def netErrEnv : RetryEnv :=
  { doFn := fun _ => { res := none, err := some .netError }
    ctxErrAfter := fun _ => none
    ctxErrDuringWait := fun _ => none }

/-- A base URL with no query string of its own. -/
def plainBase : GoURL :=
  { scheme := "http", host := "h", path := "/p", query := [], rawQuery := "" }

/-- A base URL that already carries the query `a=1`. -/
def baseWithQuery : GoURL :=
  { scheme := "http", host := "h", path := "/p", query := [("a", ["1"])], rawQuery := "a=1" }

/-- A request over `base` with no parameters and its URL not yet derived
(the state `newRequestBuilder` creates before `Build` calls
`refreshUrl`). -/
def emptyReqOn (base : GoURL) : RequestM :=
  { baseURL := base, url := "", host := "", scheme := "", path := "", params := [] }

/-- The built request over the query-less base (after `Build`'s
`refreshUrl`). -/
def builtPlainReq : RequestM := refreshUrlUnsafe (emptyReqOn plainBase)

/-- The built request over the base that carries `a=1`. -/
def builtQueryReq : RequestM := refreshUrlUnsafe (emptyReqOn baseWithQuery)

/-! ## Helper lemmas -/

theorem cleanupOldFailures_config (now : Int) (cb : CircuitBreaker) :
    (cleanupOldFailures now cb).config = cb.config := rfl

theorem recordFailure_config (now : Int) (cb : CircuitBreaker) :
    (recordFailure now cb).config = cb.config := rfl

theorem transitionToOpen_config (now : Int) (cb : CircuitBreaker) :
    (transitionToOpen now cb).config = cb.config := by
  unfold transitionToOpen; split <;> rfl

theorem transitionToClosed_config (now : Int) (cb : CircuitBreaker) :
    (transitionToClosed now cb).config = cb.config := by
  unfold transitionToClosed; split <;> rfl

theorem recordResult_config (now : Int) (res : Option Response) (err : Option GoError)
    (cb : CircuitBreaker) : (recordResult now res err cb).config = cb.config := by
  unfold recordResult
  cases cb.state
  case closed =>
    dsimp only
    split
    · split
      · rw [transitionToOpen_config, recordFailure_config]
      · rw [recordFailure_config]
    · rw [cleanupOldFailures_config]
  case «open» => rfl
  case halfOpen =>
    dsimp only
    split
    · exact transitionToOpen_config now cb
    · split
      · rw [transitionToClosed_config]
      · rfl

theorem recordResult_open (now : Int) (res : Option Response) (err : Option GoError)
    (cb : CircuitBreaker) (h : cb.state = .open) : recordResult now res err cb = cb := by
  unfold recordResult; rw [h]

theorem recordSeq_open (seq : List (Int × AttemptOutcome)) (cb : CircuitBreaker)
    (h : cb.state = .open) : recordSeq seq cb = cb := by
  induction seq generalizing cb with
  | nil => rfl
  | cons p rest ih =>
    show recordSeq rest (recordResult p.1 p.2.res p.2.err cb) = cb
    rw [recordResult_open _ _ _ _ h, ih cb h]

theorem recordSeq_config (seq : List (Int × AttemptOutcome)) (cb : CircuitBreaker) :
    (recordSeq seq cb).config = cb.config := by
  induction seq generalizing cb with
  | nil => rfl
  | cons p rest ih =>
    show (recordSeq rest (recordResult p.1 p.2.res p.2.err cb)).config = cb.config
    rw [ih, recordResult_config]

/-! ## Claims -/

/-- **C1, counterexample.**  The claim says the default trip predicate
counts a 429 status as a qualifying failure and every other nil-error
response in 200..499 as a non-failure.  On the code, a 429 response with
nil error is *not* counted as a failure, while a 100 response with nil
error *is*. -/
theorem c1_default_trip_counterexample :
    defaultShouldTrip (some { statusCode := 429, success := false }) none = false ∧
    defaultShouldTrip (some { statusCode := 100, success := true }) none = true := by
  constructor <;> rfl

/-- **C1, amended.**  `defaultShouldTrip` classifies an outcome as a
qualifying failure exactly when the error is non-nil, the response is nil,
or the response status code is `>= 500` or `< 200`; every response with a
nil error and a status in 200..499 (429 included) is a non-failure. -/
theorem c1_default_trip_characterisation (res : Option Response) (err : Option GoError) :
    defaultShouldTrip res err = true ↔
      (err ≠ none ∨ res = none ∨
        ∃ r, res = some r ∧ (500 ≤ r.statusCode ∨ r.statusCode < 200)) := by
  cases err with
  | some e => simp [defaultShouldTrip]
  | none =>
    cases res with
    | none => simp [defaultShouldTrip]
    | some r =>
      simp only [defaultShouldTrip, ne_eq, not_true_eq_false, false_or,
        reduceCtorEq, Option.some.injEq, Bool.or_eq_true, decide_eq_true_eq]
      constructor
      · rintro (h | h)
        · exact ⟨r, rfl, Or.inl h⟩
        · exact ⟨r, rfl, Or.inr h⟩
      · rintro ⟨r', hr', h | h⟩ <;> cases hr' <;> [exact Or.inl h; exact Or.inr h]

/-- **C1, witness for the amended theorem**: a concrete instantiation at a
504 response. -/
theorem c1_default_trip_characterisation_witness :
    defaultShouldTrip (some { statusCode := 504, success := false }) none = true :=
  (c1_default_trip_characterisation (some { statusCode := 504, success := false }) none).mpr
    (Or.inr (Or.inr ⟨_, rfl, Or.inl (by decide)⟩))

/-- `wrap64` is the identity on values already in the int64 range. -/
theorem wrap64_eq_self (n : Int) (h1 : -(2 ^ 63) ≤ n) (h2 : n ≤ 2 ^ 63 - 1) :
    wrap64 n = n := by
  unfold wrap64
  omega

/-- **C7, counterexample.**  The claimed formula `min(w·2^(n-1), m)` over
all attempts `n ≥ 1` fails at reachable attempts, because Go computes the
wait in wrapping int64 `time.Duration` arithmetic: with a 1-second wait,
30-second cap and unlimited retries, attempt 40 overflows the
multiplication and `ExponentialBackoff` returns a negative duration
instead of the 30-second clamp; with a `2^62`ns wait and equal cap,
`LinearBackoff` at attempt 4 wraps to 0 instead of the cap. -/
theorem c7_backoff_overflow_counterexample :
    ExponentialBackoff 40 (some overflowCfg) = -3646508323286548480 ∧
    min (overflowCfg.waitTime * 2 ^ (39 : Nat)) overflowCfg.maxWaitTime = 30000000000 ∧
    LinearBackoff 4 (some hugeWaitCfg) = 0 ∧
    min (hugeWaitCfg.waitTime * 4) hugeWaitCfg.maxWaitTime = 4611686018427387904 := by
  exact ⟨by decide, by decide, by decide, by decide⟩

/-- **C7, amended.**  For every attempt `n ≥ 1` and positive
`WaitTime`/`MaxWaitTime` whose mathematical wait product fits in int64
(no overflow of the wrapping `time.Duration` multiplication),
`ExponentialBackoff` is `min(WaitTime·2^(n-1), MaxWaitTime)` and
`LinearBackoff` is `min(WaitTime·n, MaxWaitTime)`; `FixedBackoff` is
always `WaitTime`; and for a nil config or a non-positive `WaitTime` each
returns exactly one second (never zero). -/
theorem c7_backoff_determinism :
    (∀ (n : Int) (c : RetryConfig), 1 ≤ n → 0 < c.waitTime → 0 < c.maxWaitTime →
      c.waitTime * 2 ^ (n - 1).toNat ≤ 2 ^ 63 - 1 →
      ExponentialBackoff n (some c) = min (c.waitTime * 2 ^ (n - 1).toNat) c.maxWaitTime) ∧
    (∀ (n : Int) (c : RetryConfig), 1 ≤ n → 0 < c.waitTime → 0 < c.maxWaitTime →
      c.waitTime * n ≤ 2 ^ 63 - 1 →
      LinearBackoff n (some c) = min (c.waitTime * n) c.maxWaitTime) ∧
    (∀ (n : Int) (c : RetryConfig), 1 ≤ n → 0 < c.waitTime →
      FixedBackoff n (some c) = c.waitTime) ∧
    (∀ n : Int,
      ExponentialBackoff n none = second ∧ LinearBackoff n none = second ∧
        FixedBackoff n none = second) ∧
    (∀ (n : Int) (c : RetryConfig), c.waitTime ≤ 0 →
      ExponentialBackoff n (some c) = second ∧ LinearBackoff n (some c) = second ∧
        FixedBackoff n (some c) = second) ∧
    0 < second := by
  refine ⟨?_, ?_, ?_, ?_, ?_, by decide⟩
  · intro n c hn hw hm hfit
    simp only [ExponentialBackoff]
    rw [if_neg (by omega)]
    have hp : pow2Duration n = 2 ^ (n - 1).toNat := by
      unfold pow2Duration
      rw [if_neg (by omega)]
    rw [hp]
    have hpos : 0 < c.waitTime * 2 ^ (n - 1).toNat :=
      mul_pos hw (pow_pos (by norm_num) _)
    have hwr : wrap64 (c.waitTime * 2 ^ (n - 1).toNat) = c.waitTime * 2 ^ (n - 1).toNat :=
      wrap64_eq_self _ (by omega) hfit
    rw [hwr]
    generalize c.waitTime * 2 ^ (n - 1).toNat = p at hfit hpos ⊢
    rw [min_def]
    split_ifs <;> omega
  · intro n c hn hw hm hfit
    simp only [LinearBackoff]
    rw [if_neg (by omega)]
    have hpos : 0 < c.waitTime * n := mul_pos hw (by omega)
    have hwr : wrap64 (c.waitTime * n) = c.waitTime * n :=
      wrap64_eq_self _ (by omega) hfit
    rw [hwr]
    generalize c.waitTime * n = p at hfit hpos ⊢
    rw [min_def]
    split_ifs <;> omega
  · intro n c _hn hw
    simp only [FixedBackoff]
    rw [if_neg (by omega)]
  · intro n
    exact ⟨rfl, rfl, rfl⟩
  · intro n c hw
    refine ⟨?_, ?_, ?_⟩
    · simp only [ExponentialBackoff]; rw [if_pos hw]
    · simp only [LinearBackoff]; rw [if_pos hw]
    · simp only [FixedBackoff]; rw [if_pos hw]

/-- **C7 (amended), witness**: attempt 3 under `WaitTime = 2ns`,
`MaxWaitTime = 7ns` (no overflow): exponential gives `min(2·4, 7) = 7`,
linear `min(2·3, 7) = 6`, fixed `2`; a nil config gives one second. -/
theorem c7_backoff_determinism_witness :
    ExponentialBackoff 3 (some sampleBackoffConfig) = 7 ∧
    LinearBackoff 3 (some sampleBackoffConfig) = 6 ∧
    FixedBackoff 3 (some sampleBackoffConfig) = 2 ∧
    ExponentialBackoff 3 none = second := by
  refine ⟨?_, ?_, ?_, (c7_backoff_determinism.2.2.2.1 3).1⟩
  · rw [c7_backoff_determinism.1 3 sampleBackoffConfig (by decide) (by decide) (by decide)
      (by decide)]
    rfl
  · rw [c7_backoff_determinism.2.1 3 sampleBackoffConfig (by decide) (by decide) (by decide)
      (by decide)]
    rfl
  · rw [c7_backoff_determinism.2.2.1 3 sampleBackoffConfig (by decide) (by decide)]; rfl

/-- **C8 (code bug).**  The spec requires a panic inside a completion
observer to be caught and reported by the dispatcher.  In
`executeCallback` the `recover()` is deferred in the dispatcher's
goroutine while the callback runs in an inner goroutine whose only
deferred function is `close(done)`; Go's `recover` cannot intercept a
panic from another goroutine, so a panicking callback terminates the
process instead of being caught, while a normally-returning callback
completes. -/
theorem c8_callback_panic_escapes :
    executeCallback false false (.panicsWith "boom") = .processCrash "boom" ∧
    executeCallback false false .returnsNormally = .completed ∧
    executeCallback false true .returnsNormally = .timeoutReported := by
  exact ⟨rfl, rfl, rfl⟩

/-- **C10.**  `NewCircuitBreaker` replaces each non-positive configuration
field by its default (5, 2, 60s, 1, 60s), keeps positive fields, replaces
a nil `ShouldTrip` by the default predicate and keeps a non-nil one; the
constructed breaker starts Closed with strictly positive thresholds,
window and timeout and a non-nil trip predicate. -/
theorem c10_constructor_defaults (key : String) (cfg : CBConfig) (now : Int) :
    ((cfg.failureThreshold ≤ 0 → (NewCircuitBreaker key cfg now).config.failureThreshold = 5) ∧
     (0 < cfg.failureThreshold →
       (NewCircuitBreaker key cfg now).config.failureThreshold = cfg.failureThreshold)) ∧
    ((cfg.successThreshold ≤ 0 → (NewCircuitBreaker key cfg now).config.successThreshold = 2) ∧
     (0 < cfg.successThreshold →
       (NewCircuitBreaker key cfg now).config.successThreshold = cfg.successThreshold)) ∧
    ((cfg.timeout ≤ 0 → (NewCircuitBreaker key cfg now).config.timeout = 60 * second) ∧
     (0 < cfg.timeout → (NewCircuitBreaker key cfg now).config.timeout = cfg.timeout)) ∧
    ((cfg.halfOpenMaxRequests ≤ 0 →
       (NewCircuitBreaker key cfg now).config.halfOpenMaxRequests = 1) ∧
     (0 < cfg.halfOpenMaxRequests →
       (NewCircuitBreaker key cfg now).config.halfOpenMaxRequests = cfg.halfOpenMaxRequests)) ∧
    ((cfg.windowSize ≤ 0 → (NewCircuitBreaker key cfg now).config.windowSize = 60 * second) ∧
     (0 < cfg.windowSize →
       (NewCircuitBreaker key cfg now).config.windowSize = cfg.windowSize)) ∧
    (cfg.shouldTrip = none →
      (NewCircuitBreaker key cfg now).config.shouldTrip = some defaultShouldTrip) ∧
    (∀ f, cfg.shouldTrip = some f →
      (NewCircuitBreaker key cfg now).config.shouldTrip = some f) ∧
    (NewCircuitBreaker key cfg now).state = .closed ∧
    0 < (NewCircuitBreaker key cfg now).config.failureThreshold ∧
    0 < (NewCircuitBreaker key cfg now).config.successThreshold ∧
    0 < (NewCircuitBreaker key cfg now).config.timeout ∧
    0 < (NewCircuitBreaker key cfg now).config.halfOpenMaxRequests ∧
    0 < (NewCircuitBreaker key cfg now).config.windowSize ∧
    (NewCircuitBreaker key cfg now).config.shouldTrip.isSome = true := by
  have hft : (NewCircuitBreaker key cfg now).config.failureThreshold =
      if cfg.failureThreshold ≤ 0 then 5 else cfg.failureThreshold := rfl
  have hst : (NewCircuitBreaker key cfg now).config.successThreshold =
      if cfg.successThreshold ≤ 0 then 2 else cfg.successThreshold := rfl
  have hto : (NewCircuitBreaker key cfg now).config.timeout =
      if cfg.timeout ≤ 0 then 60 * second else cfg.timeout := rfl
  have hho : (NewCircuitBreaker key cfg now).config.halfOpenMaxRequests =
      if cfg.halfOpenMaxRequests ≤ 0 then 1 else cfg.halfOpenMaxRequests := rfl
  have hws : (NewCircuitBreaker key cfg now).config.windowSize =
      if cfg.windowSize ≤ 0 then 60 * second else cfg.windowSize := rfl
  have htr : (NewCircuitBreaker key cfg now).config.shouldTrip =
      match cfg.shouldTrip with
      | none => some defaultShouldTrip
      | some f => some f := rfl
  refine ⟨⟨fun h => by rw [hft, if_pos h], fun h => by rw [hft, if_neg (by omega)]⟩,
    ⟨fun h => by rw [hst, if_pos h], fun h => by rw [hst, if_neg (by omega)]⟩,
    ⟨fun h => by rw [hto, if_pos h], fun h => by rw [hto, if_neg (by omega)]⟩,
    ⟨fun h => by rw [hho, if_pos h], fun h => by rw [hho, if_neg (by omega)]⟩,
    ⟨fun h => by rw [hws, if_pos h], fun h => by rw [hws, if_neg (by omega)]⟩,
    fun h => by rw [htr, h], fun f h => by rw [htr, h], rfl,
    ?_, ?_, ?_, ?_, ?_, ?_⟩
  · rw [hft]; split_ifs <;> omega
  · rw [hst]; split_ifs <;> omega
  · rw [hto]; split_ifs with h
    · simp only [second]; omega
    · omega
  · rw [hho]; split_ifs <;> omega
  · rw [hws]; split_ifs with h
    · simp only [second]; omega
    · omega
  · rw [htr]; cases cfg.shouldTrip <;> rfl

/-- **C3.**  In the Open state, once `Timeout` has elapsed since the state
change, the next allow-check transitions the breaker to HalfOpen (resetting
the probe counters and stamping the transition time) and admits that
request; and any allow-check made on a HalfOpen breaker leaves it HalfOpen
with the same state-change time, so only that first check performs the
Open→HalfOpen transition. -/
theorem c3_open_timeout_transition :
    (∀ (cb : CircuitBreaker) (now : Int),
      cb.state = .open → cb.config.timeout ≤ now - cb.stateChangeTime →
        (allowRequest now cb).1 = true ∧
        (allowRequest now cb).2.state = .halfOpen ∧
        (allowRequest now cb).2.stateChangeTime = now ∧
        (allowRequest now cb).2.halfOpenRequests = 0 ∧
        (allowRequest now cb).2.consecutiveSuccesses = 0) ∧
    (∀ (cb : CircuitBreaker) (now : Int),
      cb.state = .halfOpen →
        (allowRequest now cb).2.state = .halfOpen ∧
        (allowRequest now cb).2.stateChangeTime = cb.stateChangeTime) := by
  constructor
  · intro cb now h ht
    have e : allowRequest now cb = (true, transitionToHalfOpen now cb) := by
      unfold allowRequest; rw [h]; dsimp only; rw [if_pos ht]
    rw [e]
    unfold transitionToHalfOpen
    rw [if_neg (by simp [h])]
    exact ⟨rfl, rfl, rfl, rfl, rfl⟩
  · intro cb now h
    unfold allowRequest
    rw [h]
    dsimp only
    split
    · exact ⟨h, rfl⟩
    · exact ⟨rfl, rfl⟩

/-- **C3, witness**: the Open breaker of `openBreakerEx` checked at `now =
5` (exactly `Timeout` after entering Open) is admitted and lands in
HalfOpen; a further check on the resulting HalfOpen breaker leaves it
HalfOpen. -/
theorem c3_open_timeout_transition_witness :
    (allowRequest 5 openBreakerEx).1 = true ∧
    (allowRequest 5 openBreakerEx).2.state = .halfOpen ∧
    (allowRequest 6 (allowRequest 5 openBreakerEx).2).2.state = .halfOpen := by
  refine ⟨(c3_open_timeout_transition.1 openBreakerEx 5 rfl (by decide)).1,
    (c3_open_timeout_transition.1 openBreakerEx 5 rfl (by decide)).2.1,
    (c3_open_timeout_transition.2 (allowRequest 5 openBreakerEx).2 6
      (c3_open_timeout_transition.1 openBreakerEx 5 rfl (by decide)).2.1).1⟩

/-- The single success-branch step of `recordResult` in HalfOpen, before the
`SuccessThreshold` comparison. -/
theorem recordResult_halfOpen (now : Int) (res : Option Response) (err : Option GoError)
    (cb : CircuitBreaker) (hstate : cb.state = .halfOpen)
    (htrip : callShouldTrip cb.config res err = false) :
    recordResult now res err cb =
      (if cb.config.successThreshold ≤ cb.consecutiveSuccesses + 1 then
        transitionToClosed now { cb with consecutiveSuccesses := cb.consecutiveSuccesses + 1,
                                         halfOpenRequests := cb.halfOpenRequests - 1 }
      else { cb with consecutiveSuccesses := cb.consecutiveSuccesses + 1,
                     halfOpenRequests := cb.halfOpenRequests - 1 }) := by
  unfold recordResult
  rw [hstate]
  dsimp only
  rw [htrip]
  rfl

/-- Recording `SuccessThreshold - consecutiveSuccesses` consecutive
non-failures starting in HalfOpen reaches Closed with the failure window
cleared. -/
theorem halfOpen_success_run (seq : List (Int × AttemptOutcome)) :
    ∀ cb : CircuitBreaker, cb.state = .halfOpen →
      (∀ p ∈ seq, callShouldTrip cb.config p.2.res p.2.err = false) →
      cb.consecutiveSuccesses + (seq.length : Int) = cb.config.successThreshold →
      seq ≠ [] →
      (recordSeq seq cb).state = .closed ∧ (recordSeq seq cb).failures = [] := by
  induction seq with
  | nil => intro cb _ _ _ hne; exact absurd rfl hne
  | cons p rest ih =>
    intro cb hstate htrip hsum _
    have htp : callShouldTrip cb.config p.2.res p.2.err = false :=
      htrip p (List.mem_cons_self p rest)
    have hstep : recordSeq (p :: rest) cb =
        recordSeq rest (recordResult p.1 p.2.res p.2.err cb) := rfl
    rw [hstep, recordResult_halfOpen p.1 p.2.res p.2.err cb hstate htp]
    cases rest with
    | nil =>
      have hone : cb.config.successThreshold ≤ cb.consecutiveSuccesses + 1 := by
        have : ((([] : List (Int × AttemptOutcome)).length : Int) = 0) := rfl
        simp only [List.length_cons, List.length_nil] at hsum
        omega
      rw [if_pos hone]
      unfold transitionToClosed
      rw [if_neg (by simp [hstate])]
      exact ⟨rfl, rfl⟩
    | cons q rest' =>
      have hlt : ¬ cb.config.successThreshold ≤ cb.consecutiveSuccesses + 1 := by
        simp only [List.length_cons] at hsum
        push_cast at hsum
        omega
      rw [if_neg hlt]
      refine ih _ hstate (fun r hr => ?_) ?_ (by simp)
      · exact htrip r (List.mem_cons_of_mem p hr)
      · simp only [List.length_cons] at hsum ⊢
        push_cast at hsum ⊢
        omega

/-- **C4.**  In HalfOpen: an allow-check with the in-flight counter at
`HalfOpenMaxRequests` or above is rejected without any state change; an
allow-check below the limit is admitted and increments the counter; a
qualifying failure recorded in HalfOpen transitions back to Open with both
counters reset; a non-failure below the success threshold increments the
consecutive-success counter and decrements the in-flight counter; and
`SuccessThreshold` consecutive non-failures starting from a fresh HalfOpen
state reach Closed with the failure window cleared. -/
theorem c4_halfopen_probing :
    (∀ (cb : CircuitBreaker) (now : Int),
      cb.state = .halfOpen → cb.config.halfOpenMaxRequests ≤ cb.halfOpenRequests →
        allowRequest now cb = (false, cb)) ∧
    (∀ (cb : CircuitBreaker) (now : Int),
      cb.state = .halfOpen → cb.halfOpenRequests < cb.config.halfOpenMaxRequests →
        allowRequest now cb =
          (true, { cb with halfOpenRequests := cb.halfOpenRequests + 1 })) ∧
    (∀ (cb : CircuitBreaker) (now : Int) (res : Option Response) (err : Option GoError),
      cb.state = .halfOpen → callShouldTrip cb.config res err = true →
        (recordResult now res err cb).state = .open ∧
        (recordResult now res err cb).halfOpenRequests = 0 ∧
        (recordResult now res err cb).consecutiveSuccesses = 0 ∧
        (recordResult now res err cb).stateChangeTime = now) ∧
    (∀ (cb : CircuitBreaker) (now : Int) (res : Option Response) (err : Option GoError),
      cb.state = .halfOpen → callShouldTrip cb.config res err = false →
      cb.consecutiveSuccesses + 1 < cb.config.successThreshold →
        recordResult now res err cb =
          { cb with consecutiveSuccesses := cb.consecutiveSuccesses + 1,
                    halfOpenRequests := cb.halfOpenRequests - 1 }) ∧
    (∀ (cb : CircuitBreaker) (seq : List (Int × AttemptOutcome)),
      cb.state = .halfOpen → cb.consecutiveSuccesses = 0 →
      1 ≤ cb.config.successThreshold →
      (∀ p ∈ seq, callShouldTrip cb.config p.2.res p.2.err = false) →
      (seq.length : Int) = cb.config.successThreshold →
        (recordSeq seq cb).state = .closed ∧ (recordSeq seq cb).failures = []) := by
  refine ⟨?_, ?_, ?_, ?_, ?_⟩
  · intro cb now h hfull
    unfold allowRequest
    rw [h]
    dsimp only
    rw [if_pos hfull]
  · intro cb now h hroom
    unfold allowRequest
    rw [h]
    dsimp only
    rw [if_neg (by omega)]
  · intro cb now res err hstate htrip
    have e : recordResult now res err cb =
        { transitionToOpen now cb with halfOpenRequests := 0, consecutiveSuccesses := 0 } := by
      unfold recordResult
      rw [hstate]
      dsimp only
      rw [htrip]
      rfl
    rw [e]
    unfold transitionToOpen
    rw [if_neg (by simp [hstate])]
    exact ⟨rfl, rfl, rfl, rfl⟩
  · intro cb now res err hstate htrip hlt
    rw [recordResult_halfOpen now res err cb hstate htrip, if_neg (by omega)]
  · intro cb seq hstate hzero hpos htrip hlen
    refine halfOpen_success_run seq cb hstate htrip (by omega) ?_
    intro hnil
    rw [hnil] at hlen
    simp only [List.length_nil] at hlen
    omega

/-- **C4, witness**: on `halfOpenBreakerEx`, an allow-check admits and
increments the in-flight counter; with the counter at the limit a check is
rejected unchanged; a recorded 500-failure goes back to Open with counters
reset; and two consecutive 200-successes reach Closed with the window
cleared. -/
theorem c4_halfopen_probing_witness :
    allowRequest 6 halfOpenBreakerEx =
      (true, { halfOpenBreakerEx with halfOpenRequests := 1 }) ∧
    allowRequest 6 { halfOpenBreakerEx with halfOpenRequests := 1 } =
      (false, { halfOpenBreakerEx with halfOpenRequests := 1 }) ∧
    (recordResult 6 (some { statusCode := 500, success := false }) none
      halfOpenBreakerEx).state = .open ∧
    (recordSeq [(6, { res := some { statusCode := 200, success := true }, err := none }),
        (7, { res := some { statusCode := 200, success := true }, err := none })]
      halfOpenBreakerEx).state = .closed ∧
    (recordSeq [(6, { res := some { statusCode := 200, success := true }, err := none }),
        (7, { res := some { statusCode := 200, success := true }, err := none })]
      halfOpenBreakerEx).failures = [] := by
  refine ⟨c4_halfopen_probing.2.1 halfOpenBreakerEx 6 rfl (by decide),
    c4_halfopen_probing.1 { halfOpenBreakerEx with halfOpenRequests := 1 } 6 rfl (by decide),
    (c4_halfopen_probing.2.2.1 halfOpenBreakerEx 6
      (some { statusCode := 500, success := false }) none rfl (by decide)).1,
    (c4_halfopen_probing.2.2.2.2 halfOpenBreakerEx _ rfl rfl (by decide)
      (by decide) (by decide)).1,
    (c4_halfopen_probing.2.2.2.2 halfOpenBreakerEx _ rfl rfl (by decide)
      (by decide) (by decide)).2⟩

theorem recordFailure_state (now : Int) (cb : CircuitBreaker) :
    (recordFailure now cb).state = cb.state := rfl

theorem recordFailure_failures (now : Int) (cb : CircuitBreaker) :
    (recordFailure now cb).failures =
      (cb.failures ++ [now]).filter (fun t => now - cb.config.windowSize < t) := rfl

theorem transitionToOpen_of_not_open (now : Int) (cb : CircuitBreaker)
    (h : ¬ cb.state = .open) :
    transitionToOpen now cb =
      { cb with state := .open, stateChangeTime := now, halfOpenRequests := 0,
                consecutiveSuccesses := 0 } := by
  unfold transitionToOpen
  rw [if_neg h]

/-- The failure branch of `recordResult` in the Closed state. -/
theorem recordResult_closed_failure (now : Int) (res : Option Response) (err : Option GoError)
    (cb : CircuitBreaker) (hstate : cb.state = .closed)
    (htrip : callShouldTrip cb.config res err = true) :
    recordResult now res err cb =
      (if shouldOpen (recordFailure now cb) then transitionToOpen now (recordFailure now cb)
       else recordFailure now cb) := by
  unfold recordResult
  rw [hstate]
  dsimp only
  rw [htrip]
  rfl

/-- Folding qualifying failures over a Closed breaker: either the breaker
has opened, or it is still Closed, all folded timestamps survive in the
window as a suffix, and (for a non-empty fold) the surviving window is
below the failure threshold. -/
theorem recordSeq_closed_invariant (seq : List (Int × AttemptOutcome)) :
    ∀ (cb : CircuitBreaker) (done : List Int),
      cb.state = .closed →
      0 < cb.config.windowSize →
      done <:+ cb.failures →
      (∀ t ∈ done, ∀ p ∈ seq, t ≤ p.1 ∧ p.1 - t < cb.config.windowSize) →
      seq.Pairwise (fun a b => a.1 ≤ b.1 ∧ b.1 - a.1 < cb.config.windowSize) →
      (∀ p ∈ seq, callShouldTrip cb.config p.2.res p.2.err = true) →
      (recordSeq seq cb).state = .open ∨
        ((recordSeq seq cb).state = .closed ∧
          (done ++ seq.map Prod.fst) <:+ (recordSeq seq cb).failures ∧
          (seq = [] ∨
            ((recordSeq seq cb).failures.length : Int) < cb.config.failureThreshold)) := by
  induction seq with
  | nil =>
    intro cb done hstate _ hsuf _ _ _
    exact Or.inr ⟨hstate, by simpa using hsuf, Or.inl rfl⟩
  | cons p rest ih =>
    intro cb done hstate hW hsuf hdone hpair htrip
    have htp : callShouldTrip cb.config p.2.res p.2.err = true :=
      htrip p (List.mem_cons_self p rest)
    obtain ⟨hp, hprest⟩ := List.pairwise_cons.mp hpair
    have hstep : recordSeq (p :: rest) cb =
        recordSeq rest (recordResult p.1 p.2.res p.2.err cb) := rfl
    have hsfx : (done ++ [p.1]) <:+ (recordFailure p.1 cb).failures := by
      obtain ⟨pre, hpre⟩ := hsuf
      refine ⟨pre.filter (fun t => p.1 - cb.config.windowSize < t), ?_⟩
      have hall : ∀ t ∈ done ++ [p.1],
          (fun t => decide (p.1 - cb.config.windowSize < t)) t = true := by
        intro t ht
        simp only [decide_eq_true_eq]
        rcases List.mem_append.mp ht with h1 | h2
        · have h3 := hdone t h1 p (List.mem_cons_self p rest)
          omega
        · simp only [List.mem_singleton] at h2
          subst h2
          omega
      rw [recordFailure_failures, ← hpre, List.append_assoc, List.filter_append,
        List.filter_eq_self.mpr hall]
    by_cases ho : shouldOpen (recordFailure p.1 cb)
    · rw [hstep, recordResult_closed_failure p.1 p.2.res p.2.err cb hstate htp, if_pos ho]
      have hopen : (transitionToOpen p.1 (recordFailure p.1 cb)).state = .open := by
        rw [transitionToOpen_of_not_open]
        rw [recordFailure_state, hstate]
        decide
      rw [recordSeq_open rest _ hopen]
      exact Or.inl hopen
    · rw [hstep, recordResult_closed_failure p.1 p.2.res p.2.err cb hstate htp, if_neg ho]
      have hdone' : ∀ t ∈ done ++ [p.1], ∀ q ∈ rest,
          t ≤ q.1 ∧ q.1 - t < (recordFailure p.1 cb).config.windowSize := by
        intro t ht q hq
        rcases List.mem_append.mp ht with h1 | h2
        · exact hdone t h1 q (List.mem_cons_of_mem p hq)
        · simp only [List.mem_singleton] at h2
          subst h2
          exact hp q hq
      rcases ih (recordFailure p.1 cb) (done ++ [p.1]) hstate hW hsfx hdone' hprest
          (fun q hq => htrip q (List.mem_cons_of_mem p hq)) with
        hopen | ⟨hclosed, hsfx2, hbound⟩
      · exact Or.inl hopen
      · refine Or.inr ⟨hclosed, ?_, Or.inr ?_⟩
        · have he : done ++ (p :: rest).map Prod.fst = (done ++ [p.1]) ++ rest.map Prod.fst := by
            simp
          rw [he]
          exact hsfx2
        · rcases hbound with hnil | hlt
          · rw [hnil]
            show ((recordFailure p.1 cb).failures.length : Int) < cb.config.failureThreshold
            unfold shouldOpen at ho
            rw [recordFailure_config] at ho
            omega
          · exact hlt

/-- **C2.**  Starting Closed, any `FailureThreshold`-long (or longer)
monotone sequence of qualifying failures recorded within a strict
`WindowSize` interval drives the breaker to Open; `recordResult` in the
Closed state prunes the window to the records strictly inside the sliding
window both when the result is a failure (after appending it) and when it
is a success; and an `Execute` admission check on an Open breaker before
`Timeout` has elapsed returns a `CircuitBreakerError` carrying the state
and key without invoking the wrapped function and without changing the
breaker. -/
theorem c2_failure_window_opens_and_open_rejects :
    (∀ (cb : CircuitBreaker) (seq : List (Int × AttemptOutcome)),
      cb.state = .closed →
      0 < cb.config.windowSize →
      1 ≤ cb.config.failureThreshold →
      cb.config.failureThreshold ≤ (seq.length : Int) →
      seq.Pairwise (fun a b => a.1 ≤ b.1 ∧ b.1 - a.1 < cb.config.windowSize) →
      (∀ p ∈ seq, callShouldTrip cb.config p.2.res p.2.err = true) →
      (recordSeq seq cb).state = .open) ∧
    (∀ (cb : CircuitBreaker) (now : Int) (res : Option Response) (err : Option GoError),
      cb.state = .closed → callShouldTrip cb.config res err = true →
        (recordResult now res err cb).failures =
          (cb.failures ++ [now]).filter (fun t => now - cb.config.windowSize < t)) ∧
    (∀ (cb : CircuitBreaker) (now : Int) (res : Option Response) (err : Option GoError),
      cb.state = .closed → callShouldTrip cb.config res err = false →
        (recordResult now res err cb).failures =
          cb.failures.filter (fun t => now - cb.config.windowSize < t)) ∧
    (∀ (cb : CircuitBreaker) (nowA nowR : Int) (fn : AttemptOutcome),
      cb.state = .open → nowA - cb.stateChangeTime < cb.config.timeout →
        Execute nowA nowR cb fn =
          { breaker := cb, res := none, err := some (.circuitOpen .open cb.key),
            invoked := false }) := by
  refine ⟨?_, ?_, ?_, ?_⟩
  · intro cb seq hstate hW hthr hlen hpair htrip
    rcases recordSeq_closed_invariant seq cb [] hstate hW List.nil_suffix
        (by intro t ht; simp at ht) hpair htrip with
      hopen | ⟨_hclosed, hsfx, hbound⟩
    · exact hopen
    · exfalso
      rcases hbound with hnil | hlt
      · subst hnil
        simp only [List.length_nil, Int.natCast_zero] at hlen
        omega
      · have hlen2 : seq.length ≤ (recordSeq seq cb).failures.length := by
          have h4 := hsfx.length_le
          simpa using h4
        omega
  · intro cb now res err hstate htrip
    rw [recordResult_closed_failure now res err cb hstate htrip]
    split
    · rw [transitionToOpen_of_not_open]
      · exact recordFailure_failures now cb
      · rw [recordFailure_state, hstate]
        decide
    · rfl
  · intro cb now res err hstate htrip
    unfold recordResult
    rw [hstate]
    dsimp only
    rw [htrip]
    rfl
  · intro cb nowA nowR fn hstate hlt
    have e : allowRequest nowA cb = (false, cb) := by
      unfold allowRequest
      rw [hstate]
      dsimp only
      rw [if_neg (by omega)]
    unfold Execute
    dsimp only
    rw [e, ← hstate]
    rfl

/-- **C2, witness**: two network failures at times 1 and 2 open
`closedBreakerEx` (threshold 2, window 10); a failure recorded at time 1
leaves window `[1]`; a success at time 3 keeps the in-window record `[1]`;
and the Open breaker `openBreakerEx`, probed 3ns after opening (Timeout
5ns), rejects with a `CircuitBreakerError` without invoking the call. -/
theorem c2_failure_window_opens_and_open_rejects_witness :
    (recordSeq [(1, netFailureOutcome), (2, netFailureOutcome)] closedBreakerEx).state = .open ∧
    (recordResult 1 none (some .netError) closedBreakerEx).failures = [1] ∧
    (recordResult 3 (some { statusCode := 200, success := true }) none
      { closedBreakerEx with failures := [1] }).failures = [1] ∧
    Execute 3 3 openBreakerEx netFailureOutcome =
      { breaker := openBreakerEx, res := none, err := some (.circuitOpen .open "svc"),
        invoked := false } := by
  refine ⟨c2_failure_window_opens_and_open_rejects.1 closedBreakerEx
      [(1, netFailureOutcome), (2, netFailureOutcome)] rfl (by decide) (by decide) (by decide)
      ?_ (by decide),
    (c2_failure_window_opens_and_open_rejects.2.1 closedBreakerEx 1 none (some .netError) rfl
      (by decide)).trans (by decide),
    (c2_failure_window_opens_and_open_rejects.2.2.1
      { closedBreakerEx with failures := [1] } 3
      (some { statusCode := 200, success := true }) none rfl (by decide)).trans (by decide),
    c2_failure_window_opens_and_open_rejects.2.2.2 openBreakerEx 3 3 netFailureOutcome rfl
      (by decide)⟩
  refine List.Pairwise.cons ?_ (List.pairwise_singleton _ _)
  intro b hb
  simp only [List.mem_singleton] at hb
  subst hb
  exact ⟨by decide, by decide⟩

/-- The one-step unfolding of the retry loop body. -/
theorem retryLoop_succ (env : RetryEnv) (c : RetryConfig) (attempt n : Nat) :
    retryLoop env c attempt (n + 1) =
      (if isSuccessOutcome (env.doFn (attempt + 1)) then
        some ((env.doFn (attempt + 1)).res, none)
      else if ¬ shouldRetry ((attempt + 1 : Nat) : Int) (some c) (env.doFn (attempt + 1)).res
          (env.doFn (attempt + 1)).err then
        match (env.doFn (attempt + 1)).err with
        | some e => some ((env.doFn (attempt + 1)).res,
            some (.retryExhausted ((attempt + 1 : Nat) : Int) e))
        | none => some ((env.doFn (attempt + 1)).res, none)
      else
        match env.ctxErrAfter (attempt + 1) with
        | some ce => some ((env.doFn (attempt + 1)).res, some ce)
        | none =>
          match env.ctxErrDuringWait (attempt + 1) with
          | some ce => some ((env.doFn (attempt + 1)).res, some ce)
          | none => retryLoop env c (attempt + 1) n) := rfl

/-- Exhausting the loop: attempts `start+1 .. k-1` all fail retryably with
no cancellation, and attempt `k` fails with `shouldRetry` false, so the
loop returns attempt `k`'s response with its error wrapped (when non-nil)
with the attempt count. -/
theorem retryLoop_stops_at (k : Nat) :
    ∀ (env : RetryEnv) (c : RetryConfig) (start fuel : Nat),
      start < k → k ≤ start + fuel →
      (∀ i, start < i → i < k →
        isSuccessOutcome (env.doFn i) = false ∧
        shouldRetry (i : Int) (some c) (env.doFn i).res (env.doFn i).err = true) →
      (∀ i, start < i → i < k → env.ctxErrAfter i = none ∧ env.ctxErrDuringWait i = none) →
      isSuccessOutcome (env.doFn k) = false →
      shouldRetry (k : Int) (some c) (env.doFn k).res (env.doFn k).err = false →
      retryLoop env c start fuel =
        some ((env.doFn k).res,
          match (env.doFn k).err with
          | some e => some (.retryExhausted (k : Int) e)
          | none => none) := by
  intro env c start fuel
  induction fuel generalizing start with
  | zero => intro h1 h2 _ _ _ _; omega
  | succ n ih =>
    intro h1 h2 hfail hctx hlast hstop
    by_cases hak : start + 1 = k
    · subst hak
      rw [retryLoop_succ, hlast, hstop]
      cases henv : (env.doFn (start + 1)).err <;> simp
    · have ha : start + 1 < k := by omega
      obtain ⟨hf, hr⟩ := hfail (start + 1) (by omega) ha
      obtain ⟨hca, hcw⟩ := hctx (start + 1) (by omega) ha
      rw [retryLoop_succ, hf, hr, hca, hcw]
      show retryLoop env c (start + 1) n = _
      exact ih (start + 1) ha (by omega) (fun i hi1 hi2 => hfail i (by omega) hi2)
        (fun i hi1 hi2 => hctx i (by omega) hi2) hlast hstop

/-- `executeWithRetry` on a run that stops at attempt `k` with a
non-success outcome the loop will not retry. -/
theorem executeWithRetry_stops_at (env : RetryEnv) (c : RetryConfig) (k fuel : Nat)
    (hk1 : 1 ≤ k) (hfuel : k ≤ fuel) (hma : ¬ c.maxAttempts = 0)
    (hfail : ∀ i, 1 ≤ i → i < k →
      isSuccessOutcome (env.doFn i) = false ∧
      shouldRetry (i : Int) (some c) (env.doFn i).res (env.doFn i).err = true)
    (hctx : ∀ i, 1 ≤ i → i < k → env.ctxErrAfter i = none ∧ env.ctxErrDuringWait i = none)
    (hlast : isSuccessOutcome (env.doFn k) = false)
    (hstop : shouldRetry (k : Int) (some c) (env.doFn k).res (env.doFn k).err = false) :
    executeWithRetry env (some c) fuel =
      some ((env.doFn k).res,
        match (env.doFn k).err with
        | some e => some (.retryExhausted (k : Int) e)
        | none => none) := by
  unfold executeWithRetry
  dsimp only
  rw [if_neg hma]
  exact retryLoop_stops_at k env c 0 fuel (by omega) (by omega)
    (fun i hi1 hi2 => hfail i (by omega) hi2) (fun i hi1 hi2 => hctx i (by omega) hi2)
    hlast hstop

/-- **C5, counterexample.**  The claim says a non-retryable last
response/error pair is returned as-is with the error unwrapped.  Under
`MaxAttempts = 5`, a first attempt failing with a non-retryable plain
error stops the loop before exhaustion, yet the returned error is the
`request failed after 1 attempts` wrap of the cause, not the cause
itself. -/
theorem c5_nonretryable_wrap_counterexample :
    executeWithRetry plainErrEnv (some retryCfg5) 5 =
      some (none, some (.retryExhausted 1 (.plain "boom"))) ∧
    (plainErrEnv.doFn 1).err = some (.plain "boom") ∧
    decide (executeWithRetry plainErrEnv (some retryCfg5) 5 =
      some (none, some (.plain "boom"))) = false := by
  exact ⟨by decide, rfl, by decide⟩

/-- **C5, amended.**  When the retry loop stops because the retry
predicate declined before attempts were exhausted, it returns the last
attempt's response; the error comes back as-is (nil) when the last error
was nil, and otherwise it is the last error wrapped with the attempt
count — the same wrap used on exhaustion. -/
theorem c5_nonretryable_stop (env : RetryEnv) (c : RetryConfig) (k fuel : Nat)
    (hk1 : 1 ≤ k) (hfuel : k ≤ fuel)
    (hbound : c.maxAttempts < 0 ∨ (k : Int) < c.maxAttempts)
    (hfail : ∀ i, 1 ≤ i → i < k →
      isSuccessOutcome (env.doFn i) = false ∧
      shouldRetry (i : Int) (some c) (env.doFn i).res (env.doFn i).err = true)
    (hctx : ∀ i, 1 ≤ i → i < k → env.ctxErrAfter i = none ∧ env.ctxErrDuringWait i = none)
    (hlast : isSuccessOutcome (env.doFn k) = false)
    (hcond : (c.retryCondition.getD DefaultRetryCondition) (env.doFn k).res
      (env.doFn k).err = false) :
    executeWithRetry env (some c) fuel =
      some ((env.doFn k).res,
        match (env.doFn k).err with
        | some e => some (.retryExhausted (k : Int) e)
        | none => none) := by
  have hstop : shouldRetry (k : Int) (some c) (env.doFn k).res (env.doFn k).err = false := by
    simp only [shouldRetry]
    rw [if_neg (by omega), hcond]
  exact executeWithRetry_stops_at env c k fuel hk1 hfuel (by omega) hfail hctx hlast hstop

/-- **C5 (amended), witness**: one 404 attempt under `MaxAttempts = 5` is
non-retryable with nil error, and the loop returns the 404 response with
a nil, unwrapped error. -/
theorem c5_nonretryable_stop_witness :
    executeWithRetry http404Env (some retryCfg5) 5 =
      some (some { statusCode := 404, success := false }, none) := by
  exact c5_nonretryable_stop http404Env retryCfg5 1 5 (by decide) (by decide)
    (Or.inr (by decide))
    (fun i hi1 hi2 => absurd hi2 (by omega))
    (fun i hi1 hi2 => absurd hi2 (by omega))
    (by decide) (by decide)

/-- **C6, counterexample.**  The claim says exhaustion always pairs the
last response with a non-nil wrapping error.  Two 500 responses with nil
errors under `MaxAttempts = 2` exhaust the attempts without a successful
outcome, yet the loop returns the last 500 response with a nil error
(there is no underlying error to wrap). -/
theorem c6_exhaustion_nil_error_counterexample :
    executeWithRetry http500Env (some retryCfg2) 2 =
      some (some { statusCode := 500, success := false }, none) ∧
    isSuccessOutcome (http500Env.doFn 2) = false := by
  exact ⟨by decide, rfl⟩

/-- **C6, amended.**  When the retry loop exhausts its attempts
(`MaxAttempts = k` non-success attempts), it returns the last attempt's
response; when the last attempt's underlying error is non-nil the
returned error wraps that cause together with the attempt count, and when
the last error is nil (a response-classified failure) the returned error
is nil. -/
theorem c6_exhaustion_result (env : RetryEnv) (c : RetryConfig) (k fuel : Nat)
    (hk1 : 1 ≤ k) (hfuel : k ≤ fuel) (hma : c.maxAttempts = (k : Int))
    (hfail : ∀ i, 1 ≤ i → i < k →
      isSuccessOutcome (env.doFn i) = false ∧
      shouldRetry (i : Int) (some c) (env.doFn i).res (env.doFn i).err = true)
    (hctx : ∀ i, 1 ≤ i → i < k → env.ctxErrAfter i = none ∧ env.ctxErrDuringWait i = none)
    (hlast : isSuccessOutcome (env.doFn k) = false) :
    executeWithRetry env (some c) fuel =
      some ((env.doFn k).res,
        match (env.doFn k).err with
        | some e => some (.retryExhausted (k : Int) e)
        | none => none) := by
  have hstop : shouldRetry (k : Int) (some c) (env.doFn k).res (env.doFn k).err = false := by
    simp only [shouldRetry]
    rw [if_pos (by omega)]
  exact executeWithRetry_stops_at env c k fuel hk1 hfuel (by omega) hfail hctx hlast hstop

/-- **C6 (amended), witness**: two attempts failing with a retryable
network error under `MaxAttempts = 2` exhaust the budget and return the
error wrapped with the attempt count 2. -/
theorem c6_exhaustion_result_witness :
    executeWithRetry netErrEnv (some retryCfg2) 2 =
      some (none, some (.retryExhausted 2 .netError)) := by
  exact c6_exhaustion_result netErrEnv retryCfg2 2 2 (by decide) (by decide) (by decide)
    (fun i hi1 hi2 => by
      have hi : i = 1 := by omega
      subst hi
      exact ⟨by decide, by decide⟩)
    (fun i hi1 hi2 => ⟨rfl, rfl⟩)
    (by decide)

theorem valuesAdd_of_not_mem (k v : String) (vs : List (String × List String))
    (h : k ∉ vs.map Prod.fst) : valuesAdd vs k v = vs ++ [(k, [v])] := by
  induction vs with
  | nil => rfl
  | cons q rest ih =>
    obtain ⟨k0, vs0⟩ := q
    simp only [List.map_cons, List.mem_cons] at h
    push_neg at h
    obtain ⟨h1, h2⟩ := h
    simp only [valuesAdd]
    rw [if_neg (fun he => h1 he.symm), ih h2]
    simp

/-- The `Add` fold of `getUrlInstance` over parameters whose keys are fresh
for the accumulated values and mutually distinct just appends singleton
entries. -/
theorem valuesAddAll_fresh (params : List (String × String)) :
    ∀ vs : List (String × List String),
      (∀ p ∈ params, p.1 ∉ vs.map Prod.fst) →
      (params.map Prod.fst).Nodup →
      valuesAddAll vs params = vs ++ params.map (fun p => (p.1, [p.2])) := by
  induction params with
  | nil => intro vs _ _; simp [valuesAddAll]
  | cons p rest ih =>
    intro vs hfresh hnd
    have hstep : valuesAddAll vs (p :: rest) = valuesAddAll (valuesAdd vs p.1 p.2) rest := rfl
    rw [hstep, valuesAdd_of_not_mem p.1 p.2 vs (hfresh p (List.mem_cons_self p rest))]
    simp only [List.map_cons, List.nodup_cons] at hnd
    obtain ⟨hp, hnd2⟩ := hnd
    rw [ih (vs ++ [(p.1, [p.2])]) ?_ hnd2]
    · simp
    · intro q hq hmem
      simp only [List.map_append, List.mem_append, List.map_cons, List.map_nil,
        List.mem_singleton] at hmem
      rcases hmem with h1 | h2
      · exact hfresh q (List.mem_cons_of_mem p hq) h1
      · exact hp (h2 ▸ List.mem_map_of_mem Prod.fst hq)

theorem mapSet_keys (k v : String) (l : List (String × String)) :
    (mapSet l k v).map Prod.fst =
      if k ∈ l.map Prod.fst then l.map Prod.fst else l.map Prod.fst ++ [k] := by
  induction l with
  | nil => simp [mapSet]
  | cons q rest ih =>
    obtain ⟨k0, v0⟩ := q
    by_cases he : k0 = k
    · subst he
      simp [mapSet]
    · simp only [mapSet, if_neg he, List.map_cons, ih]
      by_cases hm : k ∈ rest.map Prod.fst
      · rw [if_pos hm, if_pos (List.mem_cons_of_mem k0 hm)]
      · rw [if_neg hm, if_neg (by
          intro hx
          rcases List.mem_cons.mp hx with hx1 | hx2
          · exact he hx1.symm
          · exact hm hx2)]
        simp

theorem mapSet_keys_nodup (k v : String) (l : List (String × String))
    (h : (l.map Prod.fst).Nodup) : ((mapSet l k v).map Prod.fst).Nodup := by
  rw [mapSet_keys]
  split
  · exact h
  · rename_i hm
    refine List.Nodup.append h (List.nodup_singleton k) ?_
    intro a ha hb
    simp only [List.mem_singleton] at hb
    subst hb
    exact hm ha

/-- A successful `SetParam` is exactly the map update followed by
`refreshUrlUnsafe`. -/
theorem SetParam_ok (r r' : RequestM) (k v : String) (h : SetParam r k v = .ok r') :
    r' = refreshUrlUnsafe { r with params := mapSet r.params k v } := by
  unfold SetParam at h
  split_ifs at h
  exact (Except.ok.inj h).symm

/-- **C9, counterexample.**  The claim says the derived URL's query string
is exactly the URL-encoding of the current parameter map.  Starting from a
base URL that already carries `a=1`, setting the single parameter `b=2`
derives `http://h/p?a=1&b=2`, while the encoding of the current parameter
map `{b: 2}` is just `b=2`, so the derived URL differs from the claimed
one. -/
theorem c9_base_query_counterexample :
    (SetParam builtQueryReq "b" "2").toOption.map (fun r => r.url) =
      some "http://h/p?a=1&b=2" ∧
    valuesEncode [("b", ["2"])] = "b=2" ∧
    decide ((SetParam builtQueryReq "b" "2").toOption.map (fun r => r.url) =
      some (urlToString { baseWithQuery with rawQuery := valuesEncode [("b", ["2"])] })) =
      false := by
  exact ⟨by decide, by decide, by decide⟩

/-- **C9, amended.**  Re-deriving the URL (at build time and after every
successful `SetParam`) yields a full URL whose query string is exactly the
URL-encoding of the base URL's own query parameters augmented with the
current parameter map; when the base URL carries no query of its own and
the parameter keys are distinct, that is exactly the URL-encoding of the
current parameter map. -/
theorem c9_url_param_consistency :
    (∀ r : RequestM,
      (refreshUrlUnsafe r).url =
        urlToString { r.baseURL with
          rawQuery := valuesEncode (valuesAddAll r.baseURL.query r.params) }) ∧
    (∀ (r r' : RequestM) (k v : String),
      SetParam r k v = .ok r' →
        r'.params = mapSet r.params k v ∧
        r'.url = urlToString { r.baseURL with
          rawQuery := valuesEncode (valuesAddAll r.baseURL.query r'.params) }) ∧
    (∀ (r r' : RequestM) (k v : String),
      SetParam r k v = .ok r' →
      r.baseURL.query = [] →
      (r.params.map Prod.fst).Nodup →
        r'.url = urlToString { r.baseURL with
          rawQuery := valuesEncode (r'.params.map fun p => (p.1, [p.2])) }) := by
  refine ⟨fun r => rfl, ?_, ?_⟩
  · intro r r' k v h
    have hr' := SetParam_ok r r' k v h
    subst hr'
    exact ⟨rfl, rfl⟩
  · intro r r' k v h hbase hnd
    have hr' := SetParam_ok r r' k v h
    subst hr'
    have he : valuesAddAll r.baseURL.query (mapSet r.params k v) =
        (mapSet r.params k v).map (fun p => (p.1, [p.2])) := by
      rw [hbase]
      simpa using valuesAddAll_fresh (mapSet r.params k v) [] (by simp)
        (mapSet_keys_nodup k v r.params hnd)
    show urlToString { r.baseURL with
        rawQuery := valuesEncode (valuesAddAll r.baseURL.query (mapSet r.params k v)) } =
      urlToString { r.baseURL with
        rawQuery := valuesEncode ((mapSet r.params k v).map fun p => (p.1, [p.2])) }
    rw [he]

/-- **C9 (amended), witness**: on a query-less base URL, setting `b=2`
derives `http://h/p?b=2`, the encoding of the current parameter map. -/
theorem c9_url_param_consistency_witness :
    (SetParam builtPlainReq "b" "2").toOption.map (fun r => r.url) =
      some "http://h/p?b=2" := by
  have h : SetParam builtPlainReq "b" "2" =
      .ok (refreshUrlUnsafe
        { builtPlainReq with params := mapSet builtPlainReq.params "b" "2" }) := rfl
  have h3 := c9_url_param_consistency.2.2 builtPlainReq
    (refreshUrlUnsafe { builtPlainReq with params := mapSet builtPlainReq.params "b" "2" })
    "b" "2" h rfl (by decide)
  rw [h]
  show some ((refreshUrlUnsafe
    { builtPlainReq with params := mapSet builtPlainReq.params "b" "2" }).url) =
    some "http://h/p?b=2"
  rw [h3]
  decide

/-- **C10, witness**: the all-zero configuration with nil trip predicate is
normalised to the documented defaults and a Closed initial state. -/
theorem c10_constructor_defaults_witness :
    (NewCircuitBreaker "svc" zeroCBConfig 7).config.failureThreshold = 5 ∧
    (NewCircuitBreaker "svc" zeroCBConfig 7).config.shouldTrip = some defaultShouldTrip ∧
    (NewCircuitBreaker "svc" zeroCBConfig 7).state = .closed := by
  refine ⟨(c10_constructor_defaults "svc" zeroCBConfig 7).1.1 (by decide),
    ((c10_constructor_defaults "svc" zeroCBConfig 7).2.2.2.2.2).1 rfl,
    ((c10_constructor_defaults "svc" zeroCBConfig 7).2.2.2.2.2).2.2.1⟩

end Vecto
